import Mathlib

/-!
# Verification of the SAF distance-variation-function (DVF) filter module

Shallow embedding of `saf_utility_dvf.c` (Spatial_Audio_Framework).
Machine floating point is modelled by exact real arithmetic (`ℝ`); the C
`(int)` cast on a float is modelled by truncation toward zero on `ℝ`;
the 19-entry coefficient tables are embedded as rational lists, and the
C pointer-indexed table read `tbl[i]` is modelled by `tget`.
-/

noncomputable section

namespace DVF

/-- Table 1 coefficients, row p11 (19 azimuth steps, 0°..180°). -/
def p11 : List ℚ := [12.97, 13.19, 12.13, 11.19, 9.91, 8.328, 6.493, 4.455, 2.274, 0.018, -2.24, -4.43, -6.49, -8.34, -9.93, -11.3, -12.2, -12.8, -13]

/-- Table 1 coefficients, row p21. -/
def p21 : List ℚ := [-9.69, 234.2, -11.2, -9.03, -7.87, -7.42, -7.31, -7.28, -7.29, -7.48, -8.04, -9.23, -11.6, -17.4, -48.4, 9.149, 1.905, -0.75, -1.32]

/-- Table 1 coefficients, row q11. -/
def q11 : List ℚ := [-1.14, 18.48, -1.25, -1.02, -0.83, -0.67, -0.5, -0.32, -0.11, -0.13, 0.395, 0.699, 1.084, 1.757, 4.764, -0.64, 0.109, 0.386, 0.45]

/-- Table 1 coefficients, row q21. -/
def q21 : List ℚ := [0.219, -8.5, 0.346, 0.336, 0.379, 0.421, 0.423, 0.382, 0.314, 0.24, 0.177, 0.132, 0.113, 0.142, 0.462, -0.14, -0.08, -0.06, -0.05]

/-- Table 1 coefficients, row p12. -/
def p12 : List ℚ := [-4.39, -4.31, -4.18, -4.01, -3.87, -4.1, -3.87, -5.02, -6.72, -8.69, -11.2, -12.1, -11.1, -11.1, -9.72, -8.42, -7.44, -6.78, -6.58]

/-- Table 1 coefficients, row p22. -/
def p22 : List ℚ := [2.123, -2.78, 4.224, 3.039, -0.57, -34.7, 3.271, 0.023, -8.96, -58.4, 11.47, 8.716, 21.8, 1.91, -0.04, -0.66, 0.395, 2.662, 3.387]

/-- Table 1 coefficients, row q12. -/
def q12 : List ℚ := [-0.55, 0.59, -1.01, -0.56, 0.665, 11.39, -1.57, -0.87, 0.37, 5.446, -1.13, -0.63, -2.01, 0.15, 0.243, 0.147, -0.18, -0.67, -0.84]

/-- Table 1 coefficients, row q22. -/
def q22 : List ℚ := [-0.06, -0.17, -0.02, -0.32, -1.13, -8.3, 0.637, 0.325, -0.08, -1.19, 0.103, -0.12, 0.098, -0.4, -0.41, -0.34, -0.18, 0.05, 0.131]

/-- Table 1 coefficients, row p13. -/
def p13 : List ℚ := [0.457, 0.455, -0.87, 0.465, 0.494, 0.549, 0.663, 0.691, 3.507, -27.4, 6.371, 7.032, 7.092, 7.463, 7.453, 8.101, 8.702, 8.925, 9.317]

/-- Table 1 coefficients, row p23. -/
def p23 : List ℚ := [-0.67, 0.142, 3404, -0.91, -0.67, -1.21, -1.76, 4.655, 55.09, 10336, 1.735, 40.88, 23.86, 102.8, -6.14, -18.1, -9.05, -9.03, -6.89]

/-- Table 1 coefficients, row p33. -/
def p33 : List ℚ := [0.174, -0.11, -1699, 0.437, 0.658, 2.02, 6.815, 0.614, 589.3, 16818, -9.39, -44.1, -23.6, -92.3, -1.81, 10.54, 0.532, 0.285, -2.08]

/-- Table 1 coefficients, row q13. -/
def q13 : List ℚ := [-1.75, -0.01, 7354, -2.18, -1.2, -1.59, -1.23, -0.89, 29.23, 1945, -0.06, 5.635, 3.308, 13.88, -0.88, -2.23, -0.96, -0.9, -0.57]

/-- Table 1 coefficients, row q23. -/
def q23 : List ℚ := [0.699, -0.35, -5350, 1.188, 0.256, 0.816, 1.166, 0.76, 59.51, 1707, -1.12, -6.18, -3.39, -12.7, -0.19, 1.295, -0.02, -0.08, -0.4]

/-- `numAz_table = sizeof(q23)`: C `sizeof` on an array yields its size
in bytes, so with four-byte floats this is 19 × 4 = 76 — not the entry
count 19 that the comparison in `interpHighShelfParams` presumes. -/
def numAz_table : ℤ := 19 * 4

/-- Reference head radius `a_0 = 0.0875` m. -/
def a_0 : ℝ := 0.0875

/-- Configured head radius `a_head = 0.09096` m. -/
def a_head : ℝ := 0.09096

/-- `headDim = SAF_PI * (a_0 / a_head)`. -/
def headDim : ℝ := Real.pi * (a_0 / a_head)

/-- `sosDiv2PiA = 343 / (2 * SAF_PI * a_head)`. -/
def sosDiv2PiA : ℝ := 343 / (2 * Real.pi * a_head)

/-- Table read `tbl[i]` with a C `int` index, as a real number. -/
def tget (t : List ℚ) (i : ℤ) : ℝ := ((t.getD i.toNat 0 : ℚ) : ℝ)

/-- C cast `(int)x` of a floating value: truncation toward zero. -/
def cIntCast (x : ℝ) : ℤ := if 0 ≤ x then ⌊x⌋ else -⌊-x⌋

/-- `interpolate_lin`: linear interpolation between two values. -/
def interpolate_lin (a b ifac : ℝ) : ℝ := a + (b - a) * ifac

/-- `db2mag`: convert decibels to a magnitude, `powf(10, dB/20)`. -/
def db2mag (dB : ℝ) : ℝ := (10 : ℝ) ^ (dB / 20)

/-- The (g0, gInf, fc) triple produced by the shelf-parameter functions. -/
@[ext]
structure ShelfParams where
  g0 : ℝ
  gInf : ℝ
  fc : ℝ

/-- First-order IIR coefficient triple (b0, b1, a1). -/
@[ext]
structure IIRCoeffs where
  b0 : ℝ
  b1 : ℝ
  a1 : ℝ

/-- `calcHighShelfParams`: evaluate the three rational functions
(Eqs. 8, 13, 14) at table index `i` and normalized distance `rhoIn`,
then denormalize the cutoff by `sosDiv2PiA`. -/
def calcHighShelfParams (i : ℤ) (rhoIn : ℝ) : ShelfParams :=
  let rho : ℝ := rhoIn
  let rhoSq : ℝ := rho ^ 2
  { g0 := (tget p11 i * rho + tget p21 i) / (rhoSq + tget q11 i * rho + tget q21 i)
    gInf := (tget p12 i * rho + tget p22 i) / (rhoSq + tget q12 i * rho + tget q22 i)
    fc := ((tget p13 i * rhoSq + tget p23 i * rho + tget p33 i) /
           (rhoSq + tget q13 i * rho + tget q23 i)) * sosDiv2PiA }

/-- The lower table index chosen by `interpHighShelfParams`:
`theta_idx_lower = (int)(theta/10)`, then the boundary collapse when
`theta_idx_lower + 1 == numAz_table`. -/
def dvfLowerIndex (theta : ℝ) : ℤ :=
  let l0 := cIntCast (theta / 10)
  if l0 + 1 = numAz_table then l0 - 1 else l0

/-- The upper table index chosen by `interpHighShelfParams`. -/
def dvfUpperIndex (theta : ℝ) : ℤ :=
  let l0 := cIntCast (theta / 10)
  if l0 + 1 = numAz_table then l0 else l0 + 1

/-- The interpolation factor `ifac = thetaDiv10 - theta_idx_lower`,
computed against the (possibly collapsed) lower index. -/
def dvfIfac (theta : ℝ) : ℝ := theta / 10 - (dvfLowerIndex theta : ℝ)

/-- `interpHighShelfParams`: pick the bracketing table indices for
`theta`, evaluate `calcHighShelfParams` at both with the same `rho`,
and linearly interpolate each of the three parameters. -/
def interpHighShelfParams (theta rho : ℝ) : ShelfParams :=
  let s1 := calcHighShelfParams (dvfLowerIndex theta) rho
  let s2 := calcHighShelfParams (dvfUpperIndex theta) rho
  let ifac := dvfIfac theta
  { g0 := interpolate_lin s1.g0 s2.g0 ifac
    gInf := interpolate_lin s1.gInf s2.gInf ifac
    fc := interpolate_lin s1.fc s2.fc ifac }

/-- `calcIIRCoeffs`: synthesize first-order shelf IIR coefficients from
shelf parameters (gains in dB, cutoff in Hz) and the sample rate. -/
def calcIIRCoeffs (g0 gInf fc fs : ℝ) : IIRCoeffs :=
  let v0 := db2mag gInf
  let g0_mag := db2mag g0
  let tanF := Real.tan ((headDim / fs) * fc)
  let v0tanF := v0 * tanF
  let a_c := (v0tanF - 1) / (v0tanF + 1)
  let v := (v0 - 1) * 0.5
  let va_c := v * a_c
  { b0 := g0_mag * (v - va_c + 1)
    b1 := g0_mag * (va_c - v + a_c)
    a1 := a_c }

/-- Type of the external `applyIIR` collaborator: it receives the input
block, the sample count, the filter order, the numerator pair `b`, the
denominator pair `a`, and the caller's filter-state buffer, and yields
the output block together with the updated state. -/
def ApplyIIRFun : Type :=
  List ℝ → ℕ → ℕ → ℝ × ℝ → ℝ × ℝ → List ℝ → List ℝ × List ℝ

/-- `applyDVF`, parametrized over the external `applyIIR` routine:
interpolate shelf parameters once, synthesize coefficients once, then
delegate the whole block with `order = 2`, `b = (b0, b1)`,
`a = (1, a1)`, passing the state buffer through as received. -/
def applyDVF (applyIIR : ApplyIIRFun) (theta rho : ℝ) (in_signal : List ℝ)
    (nSamples : ℕ) (fs : ℝ) (wz : List ℝ) : List ℝ × List ℝ :=
  let sp := interpHighShelfParams theta rho
  let c := calcIIRCoeffs sp.g0 sp.gInf sp.fc fs
  applyIIR in_signal nSamples 2 (c.b0, c.b1) (1, c.a1) wz

/-- `convertFrontalDoAToIpsilateral`: map a frontal DoA angle to the
(left, right) ipsilateral azimuth pair. -/
def convertFrontalDoAToIpsilateral (thetaFront : ℝ) : ℝ × ℝ :=
  let thetaL0 := |90 - thetaFront|
  let thetaL := if thetaL0 > 180 then 360 - thetaL0 else thetaL0
  (thetaL, 180 - thetaL)

/-- Both table indices used by `interpHighShelfParams` lie in the valid
range [0, 18]. -/
def indicesInBounds (theta : ℝ) : Prop :=
  0 ≤ dvfLowerIndex theta ∧ dvfLowerIndex theta ≤ 18 ∧
  0 ≤ dvfUpperIndex theta ∧ dvfUpperIndex theta ≤ 18

/-- The Shelf Parameter Generator exactly as the spec words it (§4.1):
three rational functions of `rho`, the cutoff denormalized by
`speedOfSound / (2π · headRadius)` with head radius 0.09096. -/
def computeShelfParams_spec (i : ℤ) (rho : ℝ) : ShelfParams :=
  { g0 := (tget p11 i * rho + tget p21 i) / (rho ^ 2 + tget q11 i * rho + tget q21 i)
    gInf := (tget p12 i * rho + tget p22 i) / (rho ^ 2 + tget q12 i * rho + tget q22 i)
    fc := ((tget p13 i * rho ^ 2 + tget p23 i * rho + tget p33 i) /
           (rho ^ 2 + tget q13 i * rho + tget q23 i)) * (343 / (2 * Real.pi * 0.09096)) }

/-- The IIR Coefficient Synthesizer exactly as the spec words it (§4.3),
with reference head radius 0.0875 and configured head radius 0.09096. -/
def synthesizeIIR_spec (g0Db gInfDb fcHz sampleRateHz : ℝ) : IIRCoeffs :=
  let V0 := (10 : ℝ) ^ (gInfDb / 20)
  let G0 := (10 : ℝ) ^ (g0Db / 20)
  let tanTerm := Real.tan (Real.pi * (0.0875 / 0.09096) * fcHz / sampleRateHz)
  let x := V0 * tanTerm
  let a1 := (x - 1) / (x + 1)
  let v := (V0 - 1) / 2
  { b0 := G0 * (v - v * a1 + 1)
    b1 := G0 * (v * a1 - v + a1)
    a1 := a1 }

end DVF

namespace DVF

/-- For a nonnegative argument the C `(int)` cast is the floor. -/
theorem cIntCast_of_nonneg {x : ℝ} (hx : 0 ≤ x) : cIntCast x = ⌊x⌋ := by
  simp [cIntCast, hx]

/-- For `0 ≤ θ < 180` the raw truncated index `(int)(θ/10)` lies in [0, 17]. -/
theorem trunc_index_range {θ : ℝ} (h0 : 0 ≤ θ) (h1 : θ < 180) :
    cIntCast (θ / 10) = ⌊θ / 10⌋ ∧ 0 ≤ ⌊θ / 10⌋ ∧ ⌊θ / 10⌋ ≤ 17 := by
  have hd0 : 0 ≤ θ / 10 := by linarith
  refine ⟨cIntCast_of_nonneg hd0, Int.floor_nonneg.mpr hd0, ?_⟩
  have hlt : θ / 10 < (18 : ℤ) := by push_cast; linarith
  have := Int.floor_lt.mpr hlt
  omega

/-- C9: for every theta in [0, 180) the table accesses of
`interpHighShelfParams` are in bounds: the lower index lies in [0, 17],
the upper index in [1, 18], and the interpolation factor in [0, 1). -/
theorem interp_indices_nominal (θ : ℝ) (h0 : 0 ≤ θ) (h1 : θ < 180) :
    (0 ≤ dvfLowerIndex θ ∧ dvfLowerIndex θ ≤ 17) ∧
    (1 ≤ dvfUpperIndex θ ∧ dvfUpperIndex θ ≤ 18) ∧
    (0 ≤ dvfIfac θ ∧ dvfIfac θ < 1) := by
  obtain ⟨hcast, hf0, hf17⟩ := trunc_index_range h0 h1
  have hne : ¬ (⌊θ / 10⌋ + 1 = numAz_table) := by
    unfold numAz_table; omega
  have hl : dvfLowerIndex θ = ⌊θ / 10⌋ := by
    unfold dvfLowerIndex
    rw [hcast]
    simp [hne]
  have hu : dvfUpperIndex θ = ⌊θ / 10⌋ + 1 := by
    unfold dvfUpperIndex
    rw [hcast]
    simp [hne]
  have hifac : dvfIfac θ = Int.fract (θ / 10) := by
    unfold dvfIfac
    rw [hl, Int.fract]
  refine ⟨⟨by omega, by omega⟩, ⟨by omega, by omega⟩, ?_, ?_⟩
  · rw [hifac]; exact Int.fract_nonneg _
  · rw [hifac]; exact Int.fract_lt_one _

/-- Witness for C9 at θ = 45. -/
theorem interp_indices_nominal_witness :
    (0 ≤ (45 : ℝ) ∧ (45 : ℝ) < 180) ∧
    ((0 ≤ dvfLowerIndex 45 ∧ dvfLowerIndex 45 ≤ 17) ∧
     (1 ≤ dvfUpperIndex 45 ∧ dvfUpperIndex 45 ≤ 18) ∧
     (0 ≤ dvfIfac 45 ∧ dvfIfac 45 < 1)) :=
  ⟨⟨by norm_num, by norm_num⟩,
   interp_indices_nominal 45 (by norm_num) (by norm_num)⟩

/-- C1, evaluated against the code at the failing inputs: for theta in
[180, 190) — where the claim and the spec expect the index pair to
collapse to (17, 18) — the comparison `theta_idx_upper == numAz_table`
is against `sizeof(q23)` = 76 bytes, never 19, so the collapse does not
fire: the program evaluates at indices 18 and 19, and index 19 lies
outside the valid table range [0, 18]. -/
theorem interp_no_collapse (θ : ℝ) (h0 : 180 ≤ θ) (h1 : θ < 190) :
    dvfLowerIndex θ = 18 ∧ dvfUpperIndex θ = 19 ∧ ¬ (dvfUpperIndex θ ≤ 18) := by
  have hd0 : 0 ≤ θ / 10 := by linarith
  have hfl : ⌊θ / 10⌋ = 18 := by
    rw [Int.floor_eq_iff]
    constructor <;> push_cast <;> linarith
  have hcast : cIntCast (θ / 10) = 18 := by
    rw [cIntCast_of_nonneg hd0, hfl]
  have hl : dvfLowerIndex θ = 18 := by
    unfold dvfLowerIndex numAz_table
    rw [hcast]
    norm_num
  have hu : dvfUpperIndex θ = 19 := by
    unfold dvfUpperIndex numAz_table
    rw [hcast]
    norm_num
  exact ⟨hl, hu, by omega⟩

/-- Witness for the C1 code-bug theorem at θ = 185. -/
theorem interp_no_collapse_witness :
    ((180 : ℝ) ≤ 185 ∧ (185 : ℝ) < 190) ∧
    (dvfLowerIndex 185 = 18 ∧ dvfUpperIndex 185 = 19 ∧
     ¬ (dvfUpperIndex 185 ≤ 18)) :=
  ⟨⟨by norm_num, by norm_num⟩,
   interp_no_collapse 185 (by norm_num) (by norm_num)⟩

/-- C5, evaluated against the code: at a theta that is an exact
multiple of 10 the interpolation factor is 0 and for k in [0, 17] the
result is exactly `calcHighShelfParams k rho`; but at the claimed
endpoint k = 18 (theta = 180) the program computes indices 18 and 19 —
the `sizeof` slip keeps the boundary collapse from firing — so it reads
table element 19, outside the valid range [0, 18], before the factor-0
interpolation. -/
theorem interp_exact_multiple_code_bug :
    (∀ k : ℤ, 0 ≤ k → k ≤ 17 → ∀ ρ : ℝ,
      interpHighShelfParams (10 * (k : ℝ)) ρ = calcHighShelfParams k ρ) ∧
    dvfLowerIndex 180 = 18 ∧ dvfUpperIndex 180 = 19 ∧ dvfIfac 180 = 0 := by
  have h180 : cIntCast ((180 : ℝ) / 10) = 18 := by
    rw [show (180 : ℝ) / 10 = ((18 : ℤ) : ℝ) from by norm_num,
      cIntCast_of_nonneg (by norm_num), Int.floor_intCast]
  have hl180 : dvfLowerIndex 180 = 18 := by
    unfold dvfLowerIndex numAz_table
    rw [h180]
    norm_num
  refine ⟨?_, hl180, ?_, ?_⟩
  · intro k hk0 hk1 ρ
    have harg : (10 * (k : ℝ)) / 10 = (k : ℝ) := by ring
    have hcast : cIntCast ((10 * (k : ℝ)) / 10) = k := by
      rw [harg, cIntCast_of_nonneg (by exact_mod_cast hk0), Int.floor_intCast]
    have hcol : ¬ (k + 1 = numAz_table) := by
      unfold numAz_table
      omega
    have hl : dvfLowerIndex (10 * ((k : ℤ) : ℝ)) = k := by
      unfold dvfLowerIndex
      rw [hcast]
      simp [hcol]
    have hu : dvfUpperIndex (10 * ((k : ℤ) : ℝ)) = k + 1 := by
      unfold dvfUpperIndex
      rw [hcast]
      simp [hcol]
    have hifac : dvfIfac (10 * ((k : ℤ) : ℝ)) = 0 := by
      unfold dvfIfac
      rw [hl]
      ring
    unfold interpHighShelfParams
    rw [hl, hu, hifac]
    ext <;> simp [interpolate_lin]
  · unfold dvfUpperIndex numAz_table
    rw [h180]
    norm_num
  · unfold dvfIfac
    rw [hl180]
    norm_num

/-- C7: the azimuth remapper sends 90 to (0, 180), 0 to (90, 90),
−90 to (180, 0), and the two returned azimuths always sum to 180. -/
theorem convertFrontal_props :
    convertFrontalDoAToIpsilateral 90 = (0, 180) ∧
    convertFrontalDoAToIpsilateral 0 = (90, 90) ∧
    convertFrontalDoAToIpsilateral (-90) = (180, 0) ∧
    ∀ θ : ℝ, (convertFrontalDoAToIpsilateral θ).1 +
      (convertFrontalDoAToIpsilateral θ).2 = 180 := by
  refine ⟨?_, ?_, ?_, ?_⟩
  · unfold convertFrontalDoAToIpsilateral
    norm_num
  · unfold convertFrontalDoAToIpsilateral
    norm_num [abs_of_nonneg]
  · unfold convertFrontalDoAToIpsilateral
    norm_num [abs_of_nonneg]
  · intro θ
    unfold convertFrontalDoAToIpsilateral
    dsimp only
    split <;> ring

/-- C8 counterexample: at θ = 200 the raw indices are 20 and 21; the
table accesses are not within [0, 18]. -/
theorem indicesInBounds_violation_at_200 : ¬ indicesInBounds 200 := by
  have h10 : (200 : ℝ) / 10 = ((20 : ℤ) : ℝ) := by norm_num
  have hcast : cIntCast ((200 : ℝ) / 10) = 20 := by
    rw [cIntCast_of_nonneg (by norm_num), h10, Int.floor_intCast]
  have hl : dvfLowerIndex 200 = 20 := by
    unfold dvfLowerIndex numAz_table
    rw [hcast]
    norm_num
  intro h
  rw [indicesInBounds, hl] at h
  omega

/-- C8 amended: for θ in (−10, 180) all table accesses of
`interpHighShelfParams` lie in [0, 18]; outside this range an index
escapes the table — at θ ≥ 180 the upper index reaches 19 because the
boundary collapse compares against `sizeof(q23)` = 76 and never fires,
and at θ = 200 the raw indices are already 20 and 21. -/
theorem indicesInBounds_of_range (θ : ℝ) (h0 : -10 < θ) (h1 : θ < 180) :
    indicesInBounds θ := by
  have hbound : 0 ≤ cIntCast (θ / 10) ∧ cIntCast (θ / 10) ≤ 17 := by
    by_cases hge : 0 ≤ θ
    · have hd0 : 0 ≤ θ / 10 := by linarith
      rw [cIntCast_of_nonneg hd0]
      refine ⟨Int.floor_nonneg.mpr hd0, ?_⟩
      have hlt : θ / 10 < (18 : ℤ) := by push_cast; linarith
      have := Int.floor_lt.mpr hlt
      omega
    · push_neg at hge
      have hxneg : ¬ (0 ≤ θ / 10) := by
        push_neg
        linarith
      have hfl : ⌊-(θ / 10)⌋ = 0 := by
        rw [Int.floor_eq_iff]
        constructor <;> push_cast <;> linarith
      unfold cIntCast
      rw [if_neg hxneg, hfl]
      norm_num
  have hl : dvfLowerIndex θ =
      if cIntCast (θ / 10) + 1 = numAz_table then cIntCast (θ / 10) - 1
      else cIntCast (θ / 10) := rfl
  have hu : dvfUpperIndex θ =
      if cIntCast (θ / 10) + 1 = numAz_table then cIntCast (θ / 10)
      else cIntCast (θ / 10) + 1 := rfl
  unfold numAz_table at hl hu
  have hcol : ¬ (cIntCast (θ / 10) + 1 = 19 * 4) := by omega
  rw [if_neg hcol] at hl
  rw [if_neg hcol] at hu
  unfold indicesInBounds
  omega

/-- Witness for the amended C8 at θ = 175. -/
theorem indicesInBounds_of_range_witness :
    ((-10 : ℝ) < 175 ∧ (175 : ℝ) < 180) ∧ indicesInBounds 175 :=
  ⟨⟨by norm_num, by norm_num⟩,
   indicesInBounds_of_range 175 (by norm_num) (by norm_num)⟩

/-- C2: on the table's index range and for positive distance, the code's
`calcHighShelfParams` returns exactly the spec's three rational
functions with the spec's denormalization constant. -/
theorem calcHighShelfParams_matches_spec (i : ℤ) (_hi0 : 0 ≤ i) (_hi1 : i ≤ 18)
    (ρ : ℝ) (_hρ : 0 < ρ) : calcHighShelfParams i ρ = computeShelfParams_spec i ρ := rfl

/-- Witness for C2 at i = 0, ρ = 1. -/
theorem calcHighShelfParams_matches_spec_witness :
    (0 ≤ (0 : ℤ) ∧ (0 : ℤ) ≤ 18 ∧ (0 : ℝ) < 1) ∧
    calcHighShelfParams 0 1 = computeShelfParams_spec 0 1 :=
  ⟨⟨by norm_num, by norm_num, by norm_num⟩,
   calcHighShelfParams_matches_spec 0 (by norm_num) (by norm_num) 1 (by norm_num)⟩

/-- C3: for all inputs, the code's `calcIIRCoeffs` returns exactly the
coefficient triple given by the spec's synthesis formulas. -/
theorem calcIIRCoeffs_matches_spec (g0Db gInfDb fcHz fs : ℝ) :
    calcIIRCoeffs g0Db gInfDb fcHz fs = synthesizeIIR_spec g0Db gInfDb fcHz fs := by
  have harg : (headDim / fs) * fcHz = Real.pi * (0.0875 / 0.09096) * fcHz / fs := by
    unfold headDim a_0 a_head
    ring
  unfold calcIIRCoeffs synthesizeIIR_spec db2mag
  rw [harg]
  ext <;> dsimp only <;> ring

/-- C4: `applyDVF` is exactly the composition: one interpolated shelf
triple, one coefficient triple, and a single call to the external
`applyIIR` with order 2, numerator (b0, b1), denominator (1, a1), the
state buffer passed through as given. -/
theorem applyDVF_composition (f : ApplyIIRFun) (θ ρ fs : ℝ)
    (sig wz : List ℝ) (n : ℕ) :
    applyDVF f θ ρ sig n fs wz =
      f sig n 2
        ((calcIIRCoeffs (interpHighShelfParams θ ρ).g0 (interpHighShelfParams θ ρ).gInf
            (interpHighShelfParams θ ρ).fc fs).b0,
         (calcIIRCoeffs (interpHighShelfParams θ ρ).g0 (interpHighShelfParams θ ρ).gInf
            (interpHighShelfParams θ ρ).fc fs).b1)
        (1, (calcIIRCoeffs (interpHighShelfParams θ ρ).g0 (interpHighShelfParams θ ρ).gInf
            (interpHighShelfParams θ ρ).fc fs).a1) wz := rfl

/-- With the configured head radii, the tangent argument at
fc = 4548 Hz and fs = 13125 Hz is exactly π/3. -/
theorem dvf_tan_arg_value : (headDim / 13125) * 4548 = Real.pi / 3 := by
  unfold headDim a_0 a_head
  have h : (0.0875 : ℝ) / 0.09096 / 13125 * 4548 = 1 / 3 := by norm_num
  calc Real.pi * ((0.0875 : ℝ) / 0.09096) / 13125 * 4548
      = Real.pi * ((0.0875 : ℝ) / 0.09096 / 13125 * 4548) := by ring
    _ = Real.pi * (1 / 3) := by rw [h]
    _ = Real.pi / 3 := by ring

/-- C6 counterexample: with equal gains g0Db = gInfDb = 0 at
fc = 4548 Hz, fs = 13125 Hz (tangent argument π/3), the returned
denominator coefficient is (√3 − 1)/(√3 + 1) ≠ 0, so the filter does
not reduce to the claimed (b1 = 0, a1 = 0, b0 = 10^(g0Db/20)) form. -/
theorem calcIIRCoeffs_flat_shelf_counterexample :
    ¬ ((calcIIRCoeffs 0 0 4548 13125).b1 = 0 ∧
       (calcIIRCoeffs 0 0 4548 13125).a1 = 0 ∧
       (calcIIRCoeffs 0 0 4548 13125).b0 = (10 : ℝ) ^ ((0 : ℝ) / 20)) := by
  have ha1 : (calcIIRCoeffs 0 0 4548 13125).a1 =
      (Real.sqrt 3 - 1) / (Real.sqrt 3 + 1) := by
    unfold calcIIRCoeffs db2mag
    dsimp only
    rw [dvf_tan_arg_value, Real.tan_pi_div_three,
      show (0 : ℝ) / 20 = 0 by norm_num, Real.rpow_zero, one_mul]
  have hs : (1 : ℝ) < Real.sqrt 3 :=
    (Real.lt_sqrt (by norm_num)).mpr (by norm_num)
  have hpos : 0 < (Real.sqrt 3 - 1) / (Real.sqrt 3 + 1) :=
    div_pos (by linarith) (by linarith)
  intro h
  rw [ha1] at h
  exact absurd h.2.1 (ne_of_gt hpos)

/-- C6 amended: a flat shelf in code terms requires gInfDb = 0 (unity
high-frequency shelf factor): then b0 = 10^(g0Db/20) and
b1 = b0 · a1, so the numerator is b0 times the denominator and the
transfer function is the pure gain b0, although b1 and a1 themselves
are in general nonzero. -/
theorem calcIIRCoeffs_pure_gain_at_zero_gInf (g0Db fc fs : ℝ) :
    (calcIIRCoeffs g0Db 0 fc fs).b0 = (10 : ℝ) ^ (g0Db / 20) ∧
    (calcIIRCoeffs g0Db 0 fc fs).b1 =
      (calcIIRCoeffs g0Db 0 fc fs).b0 * (calcIIRCoeffs g0Db 0 fc fs).a1 := by
  unfold calcIIRCoeffs db2mag
  rw [show (0 : ℝ) / 20 = 0 by norm_num, Real.rpow_zero]
  constructor <;> dsimp only <;> ring

/-- C10: on the nominal domain — tangent argument in (0, π/2) — the
synthesized filter is stable: −1 < a1 < 1. -/
theorem calcIIRCoeffs_stable (g0Db gInfDb fc fs : ℝ)
    (h1 : 0 < (headDim / fs) * fc) (h2 : (headDim / fs) * fc < Real.pi / 2) :
    -1 < (calcIIRCoeffs g0Db gInfDb fc fs).a1 ∧
    (calcIIRCoeffs g0Db gInfDb fc fs).a1 < 1 := by
  have htan : 0 < Real.tan ((headDim / fs) * fc) :=
    Real.tan_pos_of_pos_of_lt_pi_div_two h1 h2
  have hv0 : 0 < (10 : ℝ) ^ (gInfDb / 20) :=
    Real.rpow_pos_of_pos (by norm_num) _
  have hxpos : 0 < (10 : ℝ) ^ (gInfDb / 20) * Real.tan ((headDim / fs) * fc) :=
    mul_pos hv0 htan
  unfold calcIIRCoeffs db2mag
  dsimp only
  constructor
  · rw [lt_div_iff₀ (by linarith)]
    linarith
  · rw [div_lt_one (by linarith)]
    linarith

/-- Witness for C10 at g0Db = gInfDb = 0, fc = 4548, fs = 13125. -/
theorem calcIIRCoeffs_stable_witness :
    (0 < (headDim / 13125) * 4548 ∧ (headDim / 13125) * 4548 < Real.pi / 2) ∧
    (-1 < (calcIIRCoeffs 0 0 4548 13125).a1 ∧
     (calcIIRCoeffs 0 0 4548 13125).a1 < 1) :=
  have h1 : 0 < (headDim / 13125) * 4548 := by
    rw [dvf_tan_arg_value]
    linarith [Real.pi_pos]
  have h2 : (headDim / 13125) * 4548 < Real.pi / 2 := by
    rw [dvf_tan_arg_value]
    linarith [Real.pi_pos]
  ⟨⟨h1, h2⟩, calcIIRCoeffs_stable 0 0 4548 13125 h1 h2⟩

end DVF
